import Mathlib

/-!
Sequential shallow embedding of `src/native_development/i128_atomic.c`.

The file has two build-time branches. Under `_WIN32` the only exported
function is `compareAndSet_i128`, implemented with the MSVC intrinsic
`_InterlockedCompareExchange128`. Otherwise eight functions are exported,
implemented with the GCC builtins `__atomic_load`, `__atomic_store` and
`__atomic_compare_exchange` over the two-word struct `atomic128_t`.

The embedding models a single 16-byte cell as its current contents
(an `atomic128_t` value) and gives each exported function its
single-threaded denotation as an explicit state transformer. The weak
compare-exchange of the C11 model is allowed to fail spuriously; that
nondeterminism is modelled by an explicit Boolean oracle input that the
builtin consults only when its `weak` argument is `true`.
-/

/-- Memory orders appearing in the source: `__ATOMIC_RELAXED`,
`__ATOMIC_ACQUIRE`, `__ATOMIC_RELEASE`, `__ATOMIC_SEQ_CST`. -/
inductive MemOrder where
  | relaxed
  | acquire
  | release
  | seq_cst
  deriving DecidableEq, Repr

/-- The struct `atomic128_t` from the source: two 64-bit words, field `low`
first (offset 0, array index 0) and field `high` second (offset 8, array
index 1). The words are modelled as natural numbers; no operation in the
source performs arithmetic on them, only equality comparison and copying. -/
structure atomic128_t where
  low : Nat
  high : Nat
  deriving DecidableEq, Repr

/-- View of an `atomic128_t` as an array of two 64-bit words, as the
Windows branch does with its `__int64*` parameters: index 0 is the low
word, index 1 the high word. -/
def atomic128_t.word (v : atomic128_t) (i : Fin 2) : Nat :=
  if i = (0 : Fin 2) then v.low else v.high

/-- Numeric interpretation of the 128-bit payload: the low word is the
least significant 64 bits. -/
def atomic128_t.toNat (v : atomic128_t) : Nat :=
  v.low + 2 ^ 64 * v.high

/-- Sequential denotation of the GCC builtin `__atomic_load (addr, out, order)`:
the out-parameter receives the current cell contents; the cell itself is
not written. The memory order has no effect on the single-threaded result. -/
def __atomic_load (mo : MemOrder) (s : atomic128_t) : atomic128_t := s

/-- Sequential denotation of the GCC builtin `__atomic_store (addr, value, order)`:
the cell contents are replaced by `value`; the previous contents `s` are
discarded. The memory order has no effect on the single-threaded result. -/
def __atomic_store (mo : MemOrder) (s value : atomic128_t) : atomic128_t := value

/-- Sequential denotation of the GCC builtin
`__atomic_compare_exchange (addr, expected, desired, weak, succ, fail)`.
Result is `(success, new cell contents, new expected contents)`.
If the cell equals `expected` and the exchange is not a spurious failure,
the cell is replaced by `desired`, `expected` is left untouched and the
result is `true`; otherwise the cell is left unchanged, the observed cell
contents are written back through `expected`, and the result is `false`.
A spurious failure is possible only when `weak` is `true`; the `spurious`
oracle input models that nondeterminism. -/
def __atomic_compare_exchange (weak spurious : Bool) (succOrder failOrder : MemOrder)
    (s expected desired : atomic128_t) : Bool × atomic128_t × atomic128_t :=
  if s = expected ∧ (weak && spurious) = false then (true, desired, expected)
  else (false, s, s)

/-- Memory order used by `getOpaque_i128` in the source. -/
def getOpaque_order : MemOrder := MemOrder.relaxed

/-- Memory order used by `getAcquire_i128` in the source. -/
def getAcquire_order : MemOrder := MemOrder.acquire

/-- Memory order used by `getVolatile_i128` in the source. -/
def getVolatile_order : MemOrder := MemOrder.seq_cst

/-- Exported load, relaxed order. Returns `(cell contents after, out value)`. -/
def getOpaque_i128 (s : atomic128_t) : atomic128_t × atomic128_t :=
  (s, __atomic_load getOpaque_order s)

/-- Exported load, acquire order. Returns `(cell contents after, out value)`. -/
def getAcquire_i128 (s : atomic128_t) : atomic128_t × atomic128_t :=
  (s, __atomic_load getAcquire_order s)

/-- Exported load, sequentially consistent order. Returns
`(cell contents after, out value)`. -/
def getVolatile_i128 (s : atomic128_t) : atomic128_t × atomic128_t :=
  (s, __atomic_load getVolatile_order s)

/-- Exported strong compare-and-set (non-Windows branch): calls the builtin
with `weak = false` and seq-cst orders on both paths. The `spurious` oracle
input is passed through to the builtin, which ignores it when `weak` is
`false`. Result is `(success, new cell contents, new expected contents)`. -/
def compareAndSet_i128 (spurious : Bool) (s expected desired : atomic128_t) :
    Bool × atomic128_t × atomic128_t :=
  __atomic_compare_exchange false spurious MemOrder.seq_cst MemOrder.seq_cst s expected desired

/-- Exported weak compare-and-set: calls the builtin with `weak = true`,
release order on success and relaxed order on failure. Result is
`(success, new cell contents, new expected contents)`. -/
def weakCompareAndSetRelease_i128 (spurious : Bool) (s expected desired : atomic128_t) :
    Bool × atomic128_t × atomic128_t :=
  __atomic_compare_exchange true spurious MemOrder.release MemOrder.relaxed s expected desired

/-- Memory order used by `setOpaque_i128` in the source. -/
def setOpaque_order : MemOrder := MemOrder.relaxed

/-- Memory order used by `setRelease_i128` in the source. -/
def setRelease_order : MemOrder := MemOrder.release

/-- Memory order used by `setVolatile_i128` in the source. -/
def setVolatile_order : MemOrder := MemOrder.seq_cst

/-- Exported store, relaxed order. Returns the new cell contents. -/
def setOpaque_i128 (s value : atomic128_t) : atomic128_t :=
  __atomic_store setOpaque_order s value

/-- Exported store, release order. Returns the new cell contents. -/
def setRelease_i128 (s value : atomic128_t) : atomic128_t :=
  __atomic_store setRelease_order s value

/-- Exported store, sequentially consistent order. Returns the new cell
contents. -/
def setVolatile_i128 (s value : atomic128_t) : atomic128_t :=
  __atomic_store setVolatile_order s value

/-- Model of the MSVC intrinsic
`_InterlockedCompareExchange128 (Destination, ExchangeHigh, ExchangeLow, ComparandResult)`:
if the destination equals the comparand, the destination is replaced by the
value whose high word is `ExchangeHigh` and whose low word is `ExchangeLow`
and the result is `true`; otherwise the destination is unchanged and the
result is `false`. In both cases the original destination contents are
stored into `ComparandResult`. Result is
`(success, new destination, new comparand contents)`. -/
def _InterlockedCompareExchange128 (dest : atomic128_t) (exchangeHigh exchangeLow : Nat)
    (comparand : atomic128_t) : Bool × atomic128_t × atomic128_t :=
  if dest = comparand then (true, { low := exchangeLow, high := exchangeHigh }, dest)
  else (false, dest, dest)

/-- Exported strong compare-and-set of the `_WIN32` branch: passes
`desired[1]` as the exchange high word and `desired[0]` as the exchange
low word, exactly as the source does. -/
def win_compareAndSet_i128 (s expected desired : atomic128_t) :
    Bool × atomic128_t × atomic128_t :=
  _InterlockedCompareExchange128 s (desired.word 1) (desired.word 0) expected

/-- Names of the functions the source can export, one constructor per
function defined anywhere in the file. -/
inductive ExportName where
  | getOpaque
  | getAcquire
  | getVolatile
  | compareAndSet
  | weakCompareAndSetRelease
  | setOpaque
  | setRelease
  | setVolatile
  deriving DecidableEq, Repr

/-- Functions defined in the `_WIN32` branch of the source (lines 1 to 17):
only `compareAndSet_i128`. -/
def windowsExports : List ExportName := [ExportName.compareAndSet]

/-- Functions defined in the non-Windows branch of the source (lines 18 to
79), in source order. -/
def compilerExports : List ExportName :=
  [ExportName.getOpaque, ExportName.getAcquire, ExportName.getVolatile,
   ExportName.compareAndSet, ExportName.weakCompareAndSetRelease,
   ExportName.setOpaque, ExportName.setRelease, ExportName.setVolatile]

/-- Memory orders of the three exported load variants, in source order. -/
def loadVariantOrderings : List MemOrder :=
  [getOpaque_order, getAcquire_order, getVolatile_order]

/-- Memory orders of the three exported store variants, in source order. -/
def storeVariantOrderings : List MemOrder :=
  [setOpaque_order, setRelease_order, setVolatile_order]

/-- Single-threaded retry loop over `weakCompareAndSetRelease_i128`, as in
the weak-CAS convergence test of the spec: up to `cap` attempts, each
attempt calling the weak CAS once and stopping at the first success. The
oracle `spurious` decides, per attempt index, whether that call fails
spuriously. Returns `true` when some attempt within the cap succeeded. -/
def weakCasRetryLoop (spurious : Nat → Bool) :
    Nat → atomic128_t → atomic128_t → atomic128_t → Bool
  | 0, _, _, _ => false
  | n + 1, s, expected, desired =>
    let r := weakCompareAndSetRelease_i128 (spurious 0) s expected desired
    if r.1 then true
    else weakCasRetryLoop (fun k => spurious (k + 1)) n r.2.1 r.2.2 desired

/-- C1: for distinct 128-bit values V0, V1, V2 and a cell holding V0,
`compareAndSet_i128 (V0, V1)` returns true and a following sequentially
consistent load of the cell returns V1; a subsequent
`compareAndSet_i128 (V0, V2)` returns false, the cell still reads V1, and
the value written back through the expected parameter equals V1. -/
theorem C1_cas_succeeds_then_fails (spur1 spur2 : Bool) (V0 V1 V2 : atomic128_t)
    (h01 : V0 ≠ V1) (h02 : V0 ≠ V2) (h12 : V1 ≠ V2) :
    (compareAndSet_i128 spur1 V0 V0 V1).1 = true ∧
    (getVolatile_i128 (compareAndSet_i128 spur1 V0 V0 V1).2.1).2 = V1 ∧
    (compareAndSet_i128 spur2 (compareAndSet_i128 spur1 V0 V0 V1).2.1 V0 V2).1 = false ∧
    (getVolatile_i128
      (compareAndSet_i128 spur2 (compareAndSet_i128 spur1 V0 V0 V1).2.1 V0 V2).2.1).2 = V1 ∧
    (compareAndSet_i128 spur2 (compareAndSet_i128 spur1 V0 V0 V1).2.1 V0 V2).2.2 = V1 := by
  have h1 : compareAndSet_i128 spur1 V0 V0 V1 = (true, V1, V0) := by
    simp [compareAndSet_i128, __atomic_compare_exchange]
  have hne : ¬ (V1 = V0) := fun h => h01 h.symm
  have h2 : compareAndSet_i128 spur2 V1 V0 V2 = (false, V1, V1) := by
    simp [compareAndSet_i128, __atomic_compare_exchange, hne]
  rw [h1]
  simp [getVolatile_i128, __atomic_load, h2]

/-- Witness for C1 at the concrete distinct values (0,0), (1,0), (2,0). -/
theorem C1_witness :
    ((⟨0, 0⟩ : atomic128_t) ≠ ⟨1, 0⟩ ∧ (⟨0, 0⟩ : atomic128_t) ≠ ⟨2, 0⟩ ∧
      (⟨1, 0⟩ : atomic128_t) ≠ ⟨2, 0⟩) ∧
    ((compareAndSet_i128 false ⟨0, 0⟩ ⟨0, 0⟩ ⟨1, 0⟩).1 = true ∧
     (getVolatile_i128 (compareAndSet_i128 false ⟨0, 0⟩ ⟨0, 0⟩ ⟨1, 0⟩).2.1).2 = ⟨1, 0⟩ ∧
     (compareAndSet_i128 false
       (compareAndSet_i128 false ⟨0, 0⟩ ⟨0, 0⟩ ⟨1, 0⟩).2.1 ⟨0, 0⟩ ⟨2, 0⟩).1 = false ∧
     (getVolatile_i128 (compareAndSet_i128 false
       (compareAndSet_i128 false ⟨0, 0⟩ ⟨0, 0⟩ ⟨1, 0⟩).2.1 ⟨0, 0⟩ ⟨2, 0⟩).2.1).2 = ⟨1, 0⟩ ∧
     (compareAndSet_i128 false
       (compareAndSet_i128 false ⟨0, 0⟩ ⟨0, 0⟩ ⟨1, 0⟩).2.1 ⟨0, 0⟩ ⟨2, 0⟩).2.2 = ⟨1, 0⟩) :=
  ⟨⟨by decide, by decide, by decide⟩,
   C1_cas_succeeds_then_fails false false ⟨0, 0⟩ ⟨1, 0⟩ ⟨2, 0⟩
     (by decide) (by decide) (by decide)⟩

/-- C2: the strong compare-and-set never spuriously fails: whenever the
cell contents equal the expected value, `compareAndSet_i128` reports
success, for every value of the spurious-failure oracle. -/
theorem C2_strong_cas_never_spurious (spur : Bool) (s expected desired : atomic128_t)
    (h : s = expected) :
    (compareAndSet_i128 spur s expected desired).1 = true := by
  simp [compareAndSet_i128, __atomic_compare_exchange, h]

/-- Witness for C2 with the spurious oracle set to true. -/
theorem C2_witness :
    (⟨5, 7⟩ : atomic128_t) = ⟨5, 7⟩ ∧
    (compareAndSet_i128 true ⟨5, 7⟩ ⟨5, 7⟩ ⟨1, 2⟩).1 = true :=
  ⟨rfl, C2_strong_cas_never_spurious true ⟨5, 7⟩ ⟨5, 7⟩ ⟨1, 2⟩ rfl⟩

/-- C3: when the cell contents differ from the expected value, both the
strong and the weak compare-and-set leave the cell unchanged, return false,
and store the observed current contents into the expected parameter. -/
theorem C3_cas_mismatch_behavior (spur : Bool) (s expected desired : atomic128_t)
    (h : s ≠ expected) :
    compareAndSet_i128 spur s expected desired = (false, s, s) ∧
    weakCompareAndSetRelease_i128 spur s expected desired = (false, s, s) := by
  constructor <;>
    simp [compareAndSet_i128, weakCompareAndSetRelease_i128, __atomic_compare_exchange, h]

/-- Witness for C3 at a concrete mismatching pair. -/
theorem C3_witness :
    (⟨3, 4⟩ : atomic128_t) ≠ ⟨5, 6⟩ ∧
    (compareAndSet_i128 false ⟨3, 4⟩ ⟨5, 6⟩ ⟨7, 8⟩ = (false, ⟨3, 4⟩, ⟨3, 4⟩) ∧
     weakCompareAndSetRelease_i128 false ⟨3, 4⟩ ⟨5, 6⟩ ⟨7, 8⟩ = (false, ⟨3, 4⟩, ⟨3, 4⟩)) :=
  ⟨by decide, C3_cas_mismatch_behavior false ⟨3, 4⟩ ⟨5, 6⟩ ⟨7, 8⟩ (by decide)⟩

/-- C4: a sequentially consistent store of any value V followed immediately
by a sequentially consistent load of the same cell returns exactly V, for
every V, in particular all-zero, all-one-bits and each 64-bit half at its
maximum. -/
theorem C4_store_load_roundtrip (s v : atomic128_t) :
    (getVolatile_i128 (setVolatile_i128 s v)).2 = v := rfl

/-- C5: a single-threaded retry loop of `weakCompareAndSetRelease_i128`
against a stable cell whose contents equal the expected value succeeds
within the attempt cap as soon as the spurious-failure oracle is false for
at least one attempt index below the cap: individual calls may spuriously
fail, but the loop cannot fail forever unless every single call is
spurious. -/
theorem C5_weak_cas_retry_converges (spur : Nat → Bool) (cap : Nat)
    (s desired : atomic128_t) (h : ∃ k, k < cap ∧ spur k = false) :
    weakCasRetryLoop spur cap s s desired = true := by
  induction cap generalizing spur with
  | zero =>
    obtain ⟨k, hk, _⟩ := h
    exact absurd hk (Nat.not_lt_zero k)
  | succ n ih =>
    by_cases h0 : spur 0 = true
    · have hr : weakCompareAndSetRelease_i128 (spur 0) s s desired = (false, s, s) := by
        simp [weakCompareAndSetRelease_i128, __atomic_compare_exchange, h0]
      have hstep : weakCasRetryLoop spur (n + 1) s s desired =
          weakCasRetryLoop (fun k => spur (k + 1)) n s s desired := by
        simp [weakCasRetryLoop, hr]
      rw [hstep]
      apply ih
      obtain ⟨k, hk, hks⟩ := h
      cases k with
      | zero => exact absurd hks (by simp [h0])
      | succ j => exact ⟨j, by omega, hks⟩
    · have h0' : spur 0 = false := by
        cases hb : spur 0 with
        | false => rfl
        | true => exact absurd hb h0
      simp [weakCasRetryLoop, weakCompareAndSetRelease_i128, __atomic_compare_exchange, h0']

/-- Witness for C5: an oracle that never reports spurious failure lets the
loop succeed on the first of its single allowed attempt. -/
theorem C5_witness :
    (∃ k, k < 1 ∧ (fun _ : Nat => false) k = false) ∧
    weakCasRetryLoop (fun _ => false) 1 ⟨3, 4⟩ ⟨3, 4⟩ ⟨9, 9⟩ = true :=
  ⟨⟨0, Nat.zero_lt_one, rfl⟩,
   C5_weak_cas_retry_converges (fun _ => false) 1 ⟨3, 4⟩ ⟨9, 9⟩ ⟨0, Nat.zero_lt_one, rfl⟩⟩

/-- C7: the 128-bit value crosses the boundary low word first (struct
field `low`, array index 0) and high word second (field `high`, index 1),
the low word being the numerically least significant; and the Windows
strong CAS, which passes `desired[0]` as the low exchange word and
`desired[1]` as the high exchange word, computes exactly the same function
as the compiler-builtin strong CAS of the other branch. -/
theorem C7_word_layout_and_backend_agreement :
    (∀ v : atomic128_t, v.word 0 = v.low ∧ v.word 1 = v.high) ∧
    (∀ v : atomic128_t, v.toNat = v.word 0 + 2 ^ 64 * v.word 1) ∧
    (∀ (spur : Bool) (s expected desired : atomic128_t),
      win_compareAndSet_i128 s expected desired =
        compareAndSet_i128 spur s expected desired) := by
  refine ⟨fun v => ⟨rfl, rfl⟩, fun v => rfl, fun spur s expected desired => ?_⟩
  cases desired
  by_cases h : s = expected
  · simp [win_compareAndSet_i128, _InterlockedCompareExchange128,
      compareAndSet_i128, __atomic_compare_exchange, atomic128_t.word, h]
  · simp [win_compareAndSet_i128, _InterlockedCompareExchange128,
      compareAndSet_i128, __atomic_compare_exchange, h]

/-- C8: the Windows branch exports only the strong compare-and-set (no
load, store or weak-CAS entry point), while the compiler-atomic branch
exports all eight functions: three loads, the strong CAS, the weak CAS and
three stores. -/
theorem C8_export_surface :
    windowsExports = [ExportName.compareAndSet] ∧
    windowsExports.contains ExportName.getOpaque = false ∧
    windowsExports.contains ExportName.getAcquire = false ∧
    windowsExports.contains ExportName.getVolatile = false ∧
    windowsExports.contains ExportName.weakCompareAndSetRelease = false ∧
    windowsExports.contains ExportName.setOpaque = false ∧
    windowsExports.contains ExportName.setRelease = false ∧
    windowsExports.contains ExportName.setVolatile = false ∧
    compilerExports =
      [ExportName.getOpaque, ExportName.getAcquire, ExportName.getVolatile,
       ExportName.compareAndSet, ExportName.weakCompareAndSetRelease,
       ExportName.setOpaque, ExportName.setRelease, ExportName.setVolatile] := by
  decide

/-- C9: the boundary enumerates fixed named variants, so every exported
load variant uses an ordering among relaxed, acquire and sequentially
consistent (no release load exists) and every exported store variant uses
an ordering among relaxed, release and sequentially consistent (no acquire
store exists). -/
theorem C9_ordering_surface :
    loadVariantOrderings = [MemOrder.relaxed, MemOrder.acquire, MemOrder.seq_cst] ∧
    loadVariantOrderings.contains MemOrder.release = false ∧
    storeVariantOrderings = [MemOrder.relaxed, MemOrder.release, MemOrder.seq_cst] ∧
    storeVariantOrderings.contains MemOrder.acquire = false := by
  decide

/-- C10: sequentially, the three load variants denote one and the same
function, returning the cell contents and leaving the cell unchanged, and
the three store variants denote one and the same function, replacing the
cell contents with the given value: ordering strength never changes the
single-threaded result. -/
theorem C10_sequential_ordering_irrelevance :
    getOpaque_i128 = getAcquire_i128 ∧
    getOpaque_i128 = getVolatile_i128 ∧
    (∀ s : atomic128_t, getOpaque_i128 s = (s, s)) ∧
    setOpaque_i128 = setRelease_i128 ∧
    setOpaque_i128 = setVolatile_i128 ∧
    (∀ s v : atomic128_t, setOpaque_i128 s v = v) :=
  ⟨rfl, rfl, fun _ => rfl, rfl, rfl, fun _ _ => rfl⟩
